import Mathlib

/-!
Shallow embedding of the MacrosCoach API core (src/main.py, src/models.py,
src/schemas.py): slot resolution, schedule classification, plan bootstrap
and replacement, and the per-slot macro allocation engine.

Python floats are modelled as rationals (ℚ); the claims under scrutiny are
about the arithmetic formulas, not float rounding.  Database rows are
modelled as Lean structures and the per-user tables as lists; the single
`db.commit()` at the end of each handler together with the session close in
`db.get_db` (which discards an uncommitted transaction) is modelled by a
`run…` wrapper that keeps the prior state when the handler raises.
-/

namespace MacrosCoach

/-- Row of the `user_distributions` table (models.py, class UserDistribution):
mode tag, name, sort order and optional minute-of-day window. -/
structure UserDistribution where
  is_on : Bool
  name : String
  sort_order : Int
  start_min : Option Int
  end_min : Option Int
deriving DecidableEq, Repr

/-- Error message raised by `auto_slot_for_now` (main.py line 258). -/
def no_slot_msg : String :=
  "Nessuna distribuzione corrisponde all\x27orario corrente: definisci le fasce in Impostazioni."

/-- The window-scanning loop of `auto_slot_for_now` (main.py lines 246-258):
iterate the distributions in the given order; skip a row with a null bound;
for `start_min ≤ end_min` match `start_min ≤ minute ≤ end_min`; otherwise
(midnight wrap) match `minute ≥ start_min or minute ≤ end_min`; first match
returns the row name, and falling off the loop raises. -/
def auto_slot_for_now : List UserDistribution → Int → Except String String
  | [], _ => .error no_slot_msg
  | d :: rest, minute =>
    match d.start_min, d.end_min with
    | some s, some e =>
      if s ≤ e then
        if s ≤ minute ∧ minute ≤ e then .ok d.name else auto_slot_for_now rest minute
      else
        if minute ≥ s ∨ minute ≤ e then .ok d.name else auto_slot_for_now rest minute
    | _, _ => auto_slot_for_now rest minute

/-- Written from the spec words (spec §4.5): a distribution with both bounds
set and `start ≤ end` matches iff `start ≤ minute ≤ end`; with `start > end`
(wrap) iff `minute ≥ start` or `minute ≤ end`; a null bound never matches. -/
def windowMatchesSpec (d : UserDistribution) (minute : Int) : Bool :=
  match d.start_min, d.end_min with
  | some s, some e =>
    if s ≤ e then decide (s ≤ minute ∧ minute ≤ e)
    else decide (minute ≥ s ∨ minute ≤ e)
  | _, _ => false

/-- Written from the spec words (spec §4.5): return the name of the first
distribution, in the given order, whose window matches; fail when none does. -/
def resolve_slot_spec (dists : List UserDistribution) (minute : Int) : Except String String :=
  match dists.find? (fun d => windowMatchesSpec d minute) with
  | some d => .ok d.name
  | none => .error no_slot_msg

theorem auto_slot_eq_resolve_spec (dists : List UserDistribution) (minute : Int) :
    auto_slot_for_now dists minute = resolve_slot_spec dists minute := by
  induction dists with
  | nil => rfl
  | cons d rest ih =>
    unfold auto_slot_for_now resolve_slot_spec
    rw [List.find?_cons]
    cases hs : d.start_min with
    | none => simpa [windowMatchesSpec, hs, resolve_slot_spec] using ih
    | some s =>
      cases he : d.end_min with
      | none => simpa [windowMatchesSpec, hs, he, resolve_slot_spec] using ih
      | some e =>
        by_cases hle : s ≤ e
        · by_cases hm : s ≤ minute ∧ minute ≤ e
          · simp [windowMatchesSpec, hs, he, hle, hm]
          · simpa [windowMatchesSpec, hs, he, hle, hm, resolve_slot_spec] using ih
        · by_cases hm : minute ≥ s ∨ minute ≤ e
          · simp [windowMatchesSpec, hs, he, hle, hm]
          · simpa [windowMatchesSpec, hs, he, hle, hm, resolve_slot_spec] using ih

/-- `create_meal` slot determination (main.py lines 390-394): an explicit
slot from the request is used as is; a missing slot is resolved by
`auto_slot_for_now`, whose failure propagates to the caller. -/
def create_meal_slot (explicit : Option String) (dists : List UserDistribution)
    (minute : Int) : Except String String :=
  match explicit with
  | some s => .ok s
  | none => auto_slot_for_now dists minute

/-- Limits block of the `user_plans` row for one mode
(models.py UserPlan, schemas.py PlanLimits): integer kcal/carb/pro/fat. -/
structure PlanLimits where
  kcal : Int
  carb : Int
  pro : Int
  fat : Int
deriving DecidableEq, Repr

/-- Row of the `distribution_targets` table (models.py DistributionTarget):
mode tag, slot name and the three percentage shares. -/
structure TargetRow where
  is_on : Bool
  name : String
  pct_carb : ℚ
  pct_pro : ℚ
  pct_fat : ℚ
deriving DecidableEq, Repr

/-- Per-user plan state: the `user_plans` row's two limit blocks plus the
plan's `user_distributions` and `distribution_targets` rows. -/
structure PlanState where
  on_limits : PlanLimits
  off_limits : PlanLimits
  dists : List UserDistribution
  targets : List TargetRow
deriving DecidableEq, Repr

/-- Default ON distribution names (main.py lines 225, 870). -/
def on_names : List String := ["pre-workout", "intra-workout", "post-workout", "pranzo", "cena"]

/-- Default OFF distribution names (main.py lines 226, 871). -/
def off_names : List String := ["colazione", "pranzo", "cena", "snack"]

/-- The plan bootstrapped on first access (main.py lines 219-231 and
863-876): fixed ON/OFF limits, the default ON and OFF distributions with
sort order equal to the list index and no time windows, and no targets. -/
def defaultPlanState : PlanState where
  on_limits := ⟨2600, 360, 194, 45⟩
  off_limits := ⟨2200, 200, 194, 55⟩
  dists :=
    (on_names.enum.map fun p => (⟨true, p.2, (p.1 : Int), none, none⟩ : UserDistribution))
      ++ (off_names.enum.map fun p => (⟨false, p.2, (p.1 : Int), none, none⟩ : UserDistribution))
  targets := []

/-- The bootstrap shared by `get_plan` (main.py lines 860-876) and
`get_today_profile_and_distributions` (lines 216-231): the first plan row
for the user is returned when present; otherwise the default plan and its
default distributions are created in one commit and returned.  The store is
the list of the user's plan rows. -/
def get_or_create_plan (rows : List PlanState) : PlanState × List PlanState :=
  match rows with
  | [] => (defaultPlanState, [defaultPlanState])
  | p :: rest => (p, p :: rest)

/-- Distribution definition of a PUT /plan payload (schemas.py DistributionDef). -/
structure DistributionDef where
  name : String
  sort_order : Int
  start_min : Option Int
  end_min : Option Int
deriving DecidableEq, Repr

/-- Percentage entry of a PUT /plan payload (schemas.py DistributionPct). -/
structure DistributionPct where
  name : String
  pct_carb : ℚ
  pct_pro : ℚ
  pct_fat : ℚ
deriving DecidableEq, Repr

/-- PUT /plan request body (schemas.py PlanPayload). -/
structure PlanPayload where
  on_distributions : List DistributionDef
  off_distributions : List DistributionDef
  on_limits : PlanLimits
  off_limits : PlanLimits
  on_pcts : List DistributionPct
  off_pcts : List DistributionPct
deriving DecidableEq, Repr

/-- Error message of `update_plan` when no plan exists (main.py line 912). -/
def no_plan_msg : String := "Nessun piano trovato per questo utente"

/-- Error message of `validate_sum` (main.py line 939). -/
def pct_sum_msg : String := "Le percentuali C/P/F per gruppo devono sommare 100%"

/-- The deviation test of `validate_sum` (main.py lines 934-939): sum each
of the three percentage columns over the group (an empty group sums to 0)
and flag the group when any sum differs from 100 by more than 0.5. -/
def sums_deviate (pcts : List DistributionPct) : Bool :=
  let sc := (pcts.map fun x => x.pct_carb).sum
  let sp := (pcts.map fun x => x.pct_pro).sum
  let sf := (pcts.map fun x => x.pct_fat).sum
  decide (|sc - 100| > (1 : ℚ) / 2 ∨ |sp - 100| > (1 : ℚ) / 2 ∨ |sf - 100| > (1 : ℚ) / 2)

/-- Stored distribution row built from a payload entry (main.py lines 928-931). -/
def toDistRow (ison : Bool) (d : DistributionDef) : UserDistribution :=
  ⟨ison, d.name, d.sort_order, d.start_min, d.end_min⟩

/-- Stored target row built from a payload entry (main.py lines 944-947). -/
def toTargetRow (ison : Bool) (x : DistributionPct) : TargetRow :=
  ⟨ison, x.name, x.pct_carb, x.pct_pro, x.pct_fat⟩

/-- PUT /plan handler `update_plan` (main.py lines 908-951) on the session
state: 404 when the user has no plan; otherwise overwrite the limits,
delete and reinsert the distributions, run `validate_sum` on both
percentage groups (raising on deviation), then delete and reinsert the
targets.  The single `db.commit()` sits at the end (line 949), so a raise
leaves nothing committed; `run_update_plan` below adds that transaction
boundary. -/
def update_plan (s : Option PlanState) (p : PlanPayload) : Except String PlanState :=
  match s with
  | none => .error no_plan_msg
  | some st =>
    let st := { st with on_limits := p.on_limits, off_limits := p.off_limits }
    let st := { st with
      dists := p.on_distributions.map (toDistRow true)
        ++ p.off_distributions.map (toDistRow false) }
    if sums_deviate p.on_pcts then .error pct_sum_msg
    else if sums_deviate p.off_pcts then .error pct_sum_msg
    else .ok { st with
      targets := p.on_pcts.map (toTargetRow true) ++ p.off_pcts.map (toTargetRow false) }

/-- Transactional wrapper for `update_plan`: the handler commits once at
its end (main.py line 949) and `get_db` (db.py lines 19-24) closes the
session on exit, discarding an uncommitted transaction, so on a raise the
persisted state is the prior one. -/
def run_update_plan (s : Option PlanState) (p : PlanPayload) :
    Option PlanState × Except String Unit :=
  match update_plan s p with
  | .ok st => (some st, .ok ())
  | .error e => (s, .error e)

/-- The fully-replaced plan state a valid PUT /plan persists: limits,
distributions and targets all taken from the payload. -/
def replacedState (p : PlanPayload) : PlanState where
  on_limits := p.on_limits
  off_limits := p.off_limits
  dists := p.on_distributions.map (toDistRow true) ++ p.off_distributions.map (toDistRow false)
  targets := p.on_pcts.map (toTargetRow true) ++ p.off_pcts.map (toTargetRow false)

/-- Row of the `user_day_modes` table (models.py UserDayMode): weekday
index 0-6 and the ON flag. -/
structure DayModeRow where
  weekday : Int
  is_on : Bool
deriving DecidableEq, Repr

/-- The DayMode lookup of `get_today_profile_and_distributions`
(main.py line 213): first row of the user with the given weekday. -/
def lookupDayMode (rows : List DayModeRow) (weekday : Int) : Option DayModeRow :=
  rows.find? fun r => r.weekday == weekday

/-- The ON/OFF classification (main.py line 214):
`True if (mode and mode.is_on) else False` — the row's flag when a row
exists, `False` otherwise.  Pure lookup, no writes. -/
def classify (rows : List DayModeRow) (weekday : Int) : Bool :=
  match lookupDayMode rows weekday with
  | some m => m.is_on
  | none => false

/-- Error messages of `put_schedule` (main.py lines 966, 968). -/
def schedule_conflict_msg : String := "Un giorno non può essere sia ON sia OFF"

def schedule_empty_msg : String := "Devi impostare almeno un giorno ON o OFF"

/-- `sorted(set(xs))` of the Python handler: the distinct values in
ascending order. -/
def sortedSet (xs : List Int) : List Int :=
  xs.dedup.insertionSort (· ≤ ·)

/-- PUT /schedule handler `put_schedule` (main.py lines 961-976): reject
when a weekday is in both lists or when both are empty, both before any
write; otherwise delete the user's rows and insert one row per ON day and
one per OFF day. -/
def put_schedule (rows : List DayModeRow) (on_days off_days : List Int) :
    Except String (List DayModeRow) :=
  if (on_days.filter fun d => off_days.contains d) ≠ [] then .error schedule_conflict_msg
  else if on_days = [] ∧ off_days = [] then .error schedule_empty_msg
  else .ok
    ((sortedSet on_days).map (fun wd => (⟨wd, true⟩ : DayModeRow))
      ++ (sortedSet off_days).map (fun wd => (⟨wd, false⟩ : DayModeRow)))

/-- Transactional wrapper for `put_schedule`: on a raise the user's prior
rows are untouched (the raises precede the delete; main.py lines 965-970). -/
def run_put_schedule (rows : List DayModeRow) (on_days off_days : List Int) :
    List DayModeRow × Except String Unit :=
  match put_schedule rows on_days off_days with
  | .ok rows2 => (rows2, .ok ())
  | .error e => (rows, .error e)

/-- Timezone resolution (main.py line 210):
`ZoneInfo(current.timezone or "Europe/Rome")`.  The `or` substitutes the
default only for a falsy field (`None` or `""`); the chosen name is then
looked up in the tz database, raising `ZoneInfoNotFoundError` when absent.
`isValidZone` abstracts tz-database membership. -/
def resolveTz (isValidZone : String → Bool) (tzField : Option String) :
    Except Unit String :=
  let name := match tzField with
    | none => "Europe/Rome"
    | some s => if s = "" then "Europe/Rome" else s
  if isValidZone name then .ok name else .error ()

/-- One slot's target macros in the /meals/today response. -/
structure SlotTarget where
  carb : ℚ
  pro : ℚ
  fat : ℚ
  kcal : ℚ
deriving DecidableEq, Repr

/-- The active distribution list of `get_today_profile_and_distributions`
(main.py line 233): the plan's rows filtered by mode, sort_order ascending. -/
def active_distributions (dists : List UserDistribution) (ison : Bool) :
    List UserDistribution :=
  (dists.filter fun d => d.is_on == ison).insertionSort
    (fun a b => a.sort_order ≤ b.sort_order)

/-- The `pct_map` dict of `meals_today` (main.py line 518) looked up at a
name: the dict comprehension keeps the last row per name, so the lookup
finds the last matching row. -/
def lookupPct (targets : List TargetRow) (name : String) : Option TargetRow :=
  targets.reverse.find? fun t => t.name == name

/-- `pct_or_uniform` (main.py lines 522-525): the stored percentage when the
name is in `pct_map`, else the uniform share `100 / n` where
`n = max(1, len(names))` (line 521). -/
def pct_or_uniform (targets : List TargetRow) (n : Nat) (name : String)
    (sel : TargetRow → ℚ) : ℚ :=
  match lookupPct targets name with
  | some t => sel t
  | none => 100 / (n : ℚ)

/-- One slot's target block of `meals_today` (main.py lines 529-534):
each macro target is `limits[macro] * pct / 100`, and the kcal target is
derived as `carb*4 + pro*4 + fat*9`. -/
def slot_target (limits : PlanLimits) (targets : List TargetRow) (n : Nat)
    (name : String) : SlotTarget :=
  let c := (limits.carb : ℚ) * pct_or_uniform targets n name (fun t => t.pct_carb) / 100
  let p := (limits.pro : ℚ) * pct_or_uniform targets n name (fun t => t.pct_pro) / 100
  let f := (limits.fat : ℚ) * pct_or_uniform targets n name (fun t => t.pct_fat) / 100
  ⟨c, p, f, c * 4 + p * 4 + f * 9⟩

/-- The target side of `meals_today`'s `by_slot` (main.py lines 516-536):
targets of the active mode feed `pct_map`; the slot names come from the
active distributions; `n = max(1, len(names))`. -/
def meals_today_targets (limits : PlanLimits) (dists : List UserDistribution)
    (targets : List TargetRow) (ison : Bool) : List (String × SlotTarget) :=
  let activeTargets := targets.filter fun t => t.is_on == ison
  let names := (active_distributions dists ison).map fun d => d.name
  let n := max 1 names.length
  names.map fun name => (name, slot_target limits activeTargets n name)

/-- Written from the spec words (spec §4.6): per slot, pct is the stored
DistributionTarget percentage when one exists for the slot's name, else the
uniform share `100 / N` with `N` the count of distributions in the mode;
target amount is `limit[macro] * pct[macro] / 100`; target kcal is derived
by the 4/4/9 rule. -/
def alloc_spec (limits : PlanLimits) (dists : List UserDistribution)
    (targets : List TargetRow) (ison : Bool) : List (String × SlotTarget) :=
  let activeTargets := targets.filter fun t => t.is_on == ison
  let names := (active_distributions dists ison).map fun d => d.name
  names.map fun name =>
    let pc := pct_or_uniform activeTargets names.length name (fun t => t.pct_carb)
    let pp := pct_or_uniform activeTargets names.length name (fun t => t.pct_pro)
    let pf := pct_or_uniform activeTargets names.length name (fun t => t.pct_fat)
    let c := (limits.carb : ℚ) * pc / 100
    let p := (limits.pro : ℚ) * pp / 100
    let f := (limits.fat : ℚ) * pf / 100
    (name, (⟨c, p, f, c * 4 + p * 4 + f * 9⟩ : SlotTarget))

theorem meals_today_targets_eq_alloc_spec (limits : PlanLimits)
    (dists : List UserDistribution) (targets : List TargetRow) (ison : Bool) :
    meals_today_targets limits dists targets ison = alloc_spec limits dists targets ison := by
  simp only [meals_today_targets, alloc_spec, slot_target]
  cases hn : (active_distributions dists ison).map (fun d => d.name) with
  | nil => simp
  | cons a l =>
    have hmax : max 1 (a :: l).length = (a :: l).length :=
      Nat.max_eq_right (Nat.succ_le_succ (Nat.zero_le l.length))
    simp [hmax]

/-- Three equally-weighted ON slots with no stored targets (the spec's
allocation example). -/
def tre_pasti : List UserDistribution :=
  [⟨true, "pasto1", 0, none, none⟩, ⟨true, "pasto2", 1, none, none⟩,
   ⟨true, "pasto3", 2, none, none⟩]

/-! ## Claim theorems -/

/-- C1: for every ordered distribution list and minute-of-day, the slot
resolver returns the name of the first distribution whose window matches
under the spec's matching rules (both bounds set; `start ≤ end` means
inclusive containment; `start > end` wraps midnight; a null bound never
matches), and fails when none matches.  Concretely, the wrap window
[1320, 60] matches minutes 1439 and 30 but not 700; a null-bound
distribution is skipped; when two windows both match, the earlier one in
the given sort_order-ascending order wins. -/
theorem spec_C1_slot_resolution :
    (∀ (dists : List UserDistribution) (minute : Int),
      auto_slot_for_now dists minute = resolve_slot_spec dists minute)
    ∧ auto_slot_for_now [(⟨true, "notte", 0, some 1320, some 60⟩ : UserDistribution)] 1439
        = .ok "notte"
    ∧ auto_slot_for_now [(⟨true, "notte", 0, some 1320, some 60⟩ : UserDistribution)] 30
        = .ok "notte"
    ∧ auto_slot_for_now [(⟨true, "notte", 0, some 1320, some 60⟩ : UserDistribution)] 700
        = .error no_slot_msg
    ∧ auto_slot_for_now
        [(⟨true, "senza-fascia", 0, none, some 100⟩ : UserDistribution),
         (⟨true, "pranzo", 1, some 0, some 200⟩ : UserDistribution)] 50
        = .ok "pranzo"
    ∧ auto_slot_for_now
        [(⟨true, "prima", 0, some 0, some 100⟩ : UserDistribution),
         (⟨true, "seconda", 1, some 0, some 200⟩ : UserDistribution)] 50
        = .ok "prima" :=
  ⟨auto_slot_eq_resolve_spec, rfl, rfl, rfl, rfl, rfl⟩

/-- C2: the allocation engine computes each slot's macro target as
`limit[macro] * pct[macro] / 100` with pct the stored target percentage for
the slot's name in the active mode, else the uniform share `100/N` with `N`
the count of the mode's distributions (the first conjunct: the code equals
the spec-side allocation); the stored kcal limit is never read (the second
conjunct: the result does not depend on the kcal field); every slot's
target kcal equals `carb*4 + pro*4 + fat*9` (third conjunct); and with
limits kcal 2600 / carb 360 / pro 194 / fat 45 and three slots without
stored targets, each slot gets carb 120, pro 194/3, fat 15 and kcal 2621/3,
which is not 2600/3 (last conjuncts). -/
theorem spec_C2_allocation :
    (∀ (limits : PlanLimits) (dists : List UserDistribution) (targets : List TargetRow)
        (ison : Bool),
      meals_today_targets limits dists targets ison = alloc_spec limits dists targets ison)
    ∧ (∀ (k1 k2 c p f : Int) (dists : List UserDistribution) (targets : List TargetRow)
        (ison : Bool),
      meals_today_targets ⟨k1, c, p, f⟩ dists targets ison
        = meals_today_targets ⟨k2, c, p, f⟩ dists targets ison)
    ∧ (∀ (limits : PlanLimits) (dists : List UserDistribution) (targets : List TargetRow)
        (ison : Bool) (e : String × SlotTarget),
      e ∈ meals_today_targets limits dists targets ison →
        e.2.kcal = e.2.carb * 4 + e.2.pro * 4 + e.2.fat * 9)
    ∧ meals_today_targets ⟨2600, 360, 194, 45⟩ tre_pasti [] true
        = [("pasto1", ⟨120, 194 / 3, 15, 2621 / 3⟩),
           ("pasto2", ⟨120, 194 / 3, 15, 2621 / 3⟩),
           ("pasto3", ⟨120, 194 / 3, 15, 2621 / 3⟩)]
    ∧ (2621 : ℚ) / 3 ≠ 2600 / 3 := by
  refine ⟨meals_today_targets_eq_alloc_spec, ?_, ?_, ?_, ?_⟩
  · intro k1 k2 c p f dists targets ison
    rfl
  · intro limits dists targets ison e he
    simp only [meals_today_targets, List.mem_map] at he
    obtain ⟨name, hn, rfl⟩ := he
    rfl
  · simp [meals_today_targets, slot_target, pct_or_uniform, lookupPct,
      active_distributions, tre_pasti, List.insertionSort, List.orderedInsert]
    norm_num
  · norm_num

/-- Witness for C2's membership hypothesis: the first slot of the concrete
three-slot allocation satisfies the 4/4/9 kcal derivation. -/
theorem spec_C2_allocation_witness :
    (("pasto1", (⟨120, 194 / 3, 15, 2621 / 3⟩ : SlotTarget)) : String × SlotTarget).2.kcal
      = (("pasto1", (⟨120, 194 / 3, 15, 2621 / 3⟩ : SlotTarget)) : String × SlotTarget).2.carb * 4
        + (("pasto1", (⟨120, 194 / 3, 15, 2621 / 3⟩ : SlotTarget)) : String × SlotTarget).2.pro * 4
        + (("pasto1", (⟨120, 194 / 3, 15, 2621 / 3⟩ : SlotTarget)) : String × SlotTarget).2.fat * 9 :=
  spec_C2_allocation.2.2.1 ⟨2600, 360, 194, 45⟩ tre_pasti [] true
    ("pasto1", ⟨120, 194 / 3, 15, 2621 / 3⟩)
    (by rw [spec_C2_allocation.2.2.2.1]; exact List.mem_cons_self _ _)

/-- C4: when no distribution window matches the minute-of-day, the slot
resolver raises the configuration error with its user-actionable message
rather than falling back to any slot, and meal creation without an explicit
slot propagates that same failure. -/
theorem spec_C4_no_match_fails (dists : List UserDistribution) (minute : Int)
    (h : ∀ d ∈ dists, windowMatchesSpec d minute = false) :
    auto_slot_for_now dists minute = .error no_slot_msg
      ∧ create_meal_slot none dists minute = .error no_slot_msg := by
  have hfind : dists.find? (fun d => windowMatchesSpec d minute) = none :=
    List.find?_eq_none.mpr (by
      intro d hd
      simp [h d hd])
  have hmain : auto_slot_for_now dists minute = .error no_slot_msg := by
    rw [auto_slot_eq_resolve_spec, resolve_slot_spec, hfind]
  exact ⟨hmain, hmain⟩

/-- Witness for C4 at the spec's example: minute-of-day 500 with a single
distribution whose window [600, 800] does not cover it. -/
theorem spec_C4_no_match_fails_witness :
    auto_slot_for_now [(⟨true, "cena", 0, some 600, some 800⟩ : UserDistribution)] 500
        = .error no_slot_msg
      ∧ create_meal_slot none
          [(⟨true, "cena", 0, some 600, some 800⟩ : UserDistribution)] 500
        = .error no_slot_msg :=
  spec_C4_no_match_fails
    [(⟨true, "cena", 0, some 600, some 800⟩ : UserDistribution)] 500 (by decide)

/-- C6: `get_or_create_plan` is idempotent — a second call returns the same
plan and leaves the store unchanged, so no duplicate plan row and no
duplicated default distributions are created. -/
theorem spec_C6_get_or_create_idempotent (rows : List PlanState) :
    get_or_create_plan (get_or_create_plan rows).2
      = ((get_or_create_plan rows).1, (get_or_create_plan rows).2) := by
  cases rows <;> rfl

/-- C7: when no DayMode row exists for the weekday, `classify` returns OFF;
the lookup is a pure function of the rows. -/
theorem spec_C7_classify_default_off (rows : List DayModeRow) (weekday : Int)
    (h : ∀ r ∈ rows, r.weekday ≠ weekday) :
    classify rows weekday = false := by
  have hfind : rows.find? (fun r => r.weekday == weekday) = none :=
    List.find?_eq_none.mpr (by
      intro r hr
      simpa using h r hr)
  simp [classify, lookupDayMode, hfind]

/-- Witness for C7: a schedule with rows only for weekdays 0 and 1 classifies
weekday 3 as OFF. -/
theorem spec_C7_classify_default_off_witness :
    classify [(⟨0, true⟩ : DayModeRow), (⟨1, true⟩ : DayModeRow)] 3 = false :=
  spec_C7_classify_default_off [(⟨0, true⟩ : DayModeRow), (⟨1, true⟩ : DayModeRow)] 3
    (by decide)

/-- A payload whose ON percentage group sums to 50 per macro (deviates from
100 by more than 0.5). -/
def payload_invalido : PlanPayload where
  on_distributions := [⟨"pranzo", 0, some 0, some 1439⟩]
  off_distributions := []
  on_limits := ⟨2000, 250, 150, 60⟩
  off_limits := ⟨1800, 180, 150, 60⟩
  on_pcts := [⟨"pranzo", 50, 50, 50⟩]
  off_pcts := [⟨"cena", 100, 100, 100⟩]

/-- A payload whose two percentage groups each sum to exactly 100 per macro. -/
def payload_valido : PlanPayload where
  on_distributions := [⟨"pranzo", 0, some 0, some 719⟩, ⟨"cena", 1, some 720, some 1439⟩]
  off_distributions := [⟨"cena", 0, some 0, some 1439⟩]
  on_limits := ⟨2000, 250, 150, 60⟩
  off_limits := ⟨1800, 180, 150, 60⟩
  on_pcts := [⟨"pranzo", 40, 60, 30⟩, ⟨"cena", 60, 40, 70⟩]
  off_pcts := [⟨"cena", 100, 100, 100⟩]

/-- A payload with both percentage groups empty. -/
def payload_vuoto : PlanPayload where
  on_distributions := [⟨"pranzo", 0, some 0, some 1439⟩]
  off_distributions := [⟨"cena", 0, some 0, some 1439⟩]
  on_limits := ⟨2000, 250, 150, 60⟩
  off_limits := ⟨1800, 180, 150, 60⟩
  on_pcts := []
  off_pcts := []

theorem sums_deviate_nil : sums_deviate [] = true := by
  simp [sums_deviate]
  norm_num

/-- C3: a PUT /plan whose ON or OFF percentage group has a macro sum
deviating from 100 by more than 0.5 raises the validation error and leaves
the persisted plan state exactly as before the call (the lone commit sits
after validation, so nothing partial is written); a request passing both
validations persists the wholly replaced limits, distributions and
targets. -/
theorem spec_C3_replace_all_or_nothing (st : PlanState) (p : PlanPayload) :
    ((sums_deviate p.on_pcts = true ∨ sums_deviate p.off_pcts = true) →
      run_update_plan (some st) p = (some st, .error pct_sum_msg))
    ∧ (sums_deviate p.on_pcts = false → sums_deviate p.off_pcts = false →
      run_update_plan (some st) p = (some (replacedState p), .ok ())) := by
  constructor
  · intro h
    rcases h with h | h
    · simp [run_update_plan, update_plan, h]
    · cases hon : sums_deviate p.on_pcts
      · simp [run_update_plan, update_plan, hon, h]
      · simp [run_update_plan, update_plan, hon]
  · intro h1 h2
    simp [run_update_plan, update_plan, h1, h2, replacedState]

/-- Witness for C3: a concrete invalid payload leaves the default plan
untouched and errors; a concrete valid payload is persisted wholesale. -/
theorem spec_C3_replace_all_or_nothing_witness :
    run_update_plan (some defaultPlanState) payload_invalido
        = (some defaultPlanState, .error pct_sum_msg)
      ∧ run_update_plan (some defaultPlanState) payload_valido
        = (some (replacedState payload_valido), .ok ()) :=
  ⟨(spec_C3_replace_all_or_nothing defaultPlanState payload_invalido).1
      (Or.inl (by norm_num [payload_invalido, sums_deviate])),
    (spec_C3_replace_all_or_nothing defaultPlanState payload_valido).2
      (by norm_num [payload_valido, sums_deviate])
      (by norm_num [payload_valido, sums_deviate])⟩

/-- C10: a PUT /plan whose `on_pcts` or `off_pcts` list is empty is always
rejected — the empty group's macro sums are 0, deviating from 100 by more
than 0.5 — and the prior state persists; so targets can never be replaced
with an empty set through this endpoint, even though the bootstrapped
default plan itself has no targets (last conjunct) and allocation falls
back to the uniform split when targets are absent. -/
theorem spec_C10_empty_group_rejected (st : PlanState) (p : PlanPayload)
    (h : p.on_pcts = [] ∨ p.off_pcts = []) :
    run_update_plan (some st) p = (some st, .error pct_sum_msg)
      ∧ defaultPlanState.targets = [] := by
  refine ⟨?_, rfl⟩
  rcases h with h | h
  · have hon : sums_deviate p.on_pcts = true := by rw [h]; exact sums_deviate_nil
    simp [run_update_plan, update_plan, hon]
  · have hoff : sums_deviate p.off_pcts = true := by rw [h]; exact sums_deviate_nil
    cases hon : sums_deviate p.on_pcts
    · simp [run_update_plan, update_plan, hon, hoff]
    · simp [run_update_plan, update_plan, hon]

/-- Witness for C10: the payload with both groups empty is rejected and the
default plan persists unchanged. -/
theorem spec_C10_empty_group_rejected_witness :
    run_update_plan (some defaultPlanState) payload_vuoto
        = (some defaultPlanState, .error pct_sum_msg)
      ∧ defaultPlanState.targets = [] :=
  spec_C10_empty_group_rejected defaultPlanState payload_vuoto (Or.inl rfl)

/-- C5 counterexample: PUT /plan is a plan-dependent operation, yet run for
a user without a plan it bootstraps nothing — it raises the not-found error
and the store still holds no plan — refuting "the first time ANY
plan-dependent operation runs for that user a Plan is created". -/
theorem spec_C5_counterexample :
    run_update_plan none payload_valido = (none, .error no_plan_msg) := rfl

/-- C5 (amended): the plan-reading operations (GET /plan and the
today-profile helper behind the meal endpoints) bootstrap, on first access
by a user without a plan, a plan carrying ON limits 2600/360/194/45 and OFF
limits 2200/200/194/55 together with exactly the five default ON and four
default OFF distributions, sort order equal to the list index, in one
commit (the returned state already holds them); plan replacement
(PUT /plan) instead fails with the not-found error and bootstraps
nothing. -/
theorem spec_C5_bootstrap_defaults :
    get_or_create_plan [] = (defaultPlanState, [defaultPlanState])
      ∧ defaultPlanState.on_limits = ⟨2600, 360, 194, 45⟩
      ∧ defaultPlanState.off_limits = ⟨2200, 200, 194, 55⟩
      ∧ defaultPlanState.dists =
          [⟨true, "pre-workout", 0, none, none⟩, ⟨true, "intra-workout", 1, none, none⟩,
           ⟨true, "post-workout", 2, none, none⟩, ⟨true, "pranzo", 3, none, none⟩,
           ⟨true, "cena", 4, none, none⟩, ⟨false, "colazione", 0, none, none⟩,
           ⟨false, "pranzo", 1, none, none⟩, ⟨false, "cena", 2, none, none⟩,
           ⟨false, "snack", 3, none, none⟩]
      ∧ (∀ p : PlanPayload, run_update_plan none p = (none, .error no_plan_msg)) :=
  ⟨rfl, rfl, rfl, by decide, fun _ => rfl⟩

/-- C8: a PUT /schedule naming some weekday in both lists, or naming no
weekday at all, is rejected before any write and the user's prior DayMode
rows persist unchanged. -/
theorem spec_C8_schedule_validation (rows : List DayModeRow)
    (on_days off_days : List Int)
    (h : (∃ d, d ∈ on_days ∧ d ∈ off_days) ∨ (on_days = [] ∧ off_days = [])) :
    ∃ e, put_schedule rows on_days off_days = .error e
      ∧ run_put_schedule rows on_days off_days = (rows, .error e) := by
  rcases h with ⟨d, hon, hoff⟩ | ⟨h1, h2⟩
  · have hmem : d ∈ on_days.filter fun x => off_days.contains x :=
      List.mem_filter.mpr ⟨hon, by simpa using hoff⟩
    have hne : (on_days.filter fun x => off_days.contains x) ≠ [] :=
      List.ne_nil_of_mem hmem
    have hput : put_schedule rows on_days off_days = .error schedule_conflict_msg := by
      unfold put_schedule
      rw [if_pos hne]
    exact ⟨schedule_conflict_msg, hput, by unfold run_put_schedule; rw [hput]⟩
  · subst h1; subst h2
    have hput : put_schedule rows [] [] = .error schedule_empty_msg := by
      unfold put_schedule
      rw [if_neg (fun hc => hc rfl), if_pos ⟨rfl, rfl⟩]
    exact ⟨schedule_empty_msg, hput, by unfold run_put_schedule; rw [hput]⟩

/-- Witness for C8: weekday 1 listed both ON and OFF is rejected and the
prior single row survives. -/
theorem spec_C8_schedule_validation_witness :
    ∃ e, put_schedule [(⟨0, true⟩ : DayModeRow)] [1] [1] = .error e
      ∧ run_put_schedule [(⟨0, true⟩ : DayModeRow)] [1] [1]
          = ([(⟨0, true⟩ : DayModeRow)], .error e) :=
  spec_C8_schedule_validation [(⟨0, true⟩ : DayModeRow)] [1] [1]
    (Or.inl ⟨1, by decide, by decide⟩)

/-- C9 (code bug in the source): with a tz database that contains
"Europe/Rome", an unset or empty user timezone is substituted by the
default, but a non-empty string absent from the database is handed to the
zone lookup unguarded — `current.timezone or "Europe/Rome"` only replaces
falsy values — so the lookup raises instead of substituting the default,
contradicting the documented requirement that time resolution never raise. -/
theorem spec_C9_timezone_fallback :
    resolveTz (fun s => s == "Europe/Rome") none = .ok "Europe/Rome"
      ∧ resolveTz (fun s => s == "Europe/Rome") (some "") = .ok "Europe/Rome"
      ∧ resolveTz (fun s => s == "Europe/Rome") (some "Mars/Olympus") = .error () :=
  ⟨rfl, rfl, rfl⟩

end MacrosCoach
